import Mathlib

/-!
# Verification of the rosa-namespace-provisioner reconciliation core

Shallow embedding of the controller in `pkg/controller/controller.go`
(`handleGroup`, `createUserProject`, `createRoleBinding`, `Run`, and the
event registration in `NewController`), together with a model of the
cluster-side state touched through the OpenShift project client and the
Kubernetes RBAC client.

Gateway calls are deterministic over the modelled cluster state (a get
finds an object iff it is present, a create of a present object reports
"already exists", a delete of an absent object reports "not found"), with
an explicit fault oracle that can make any individual call fail with an
unclassified ("other") error, mirroring the tri-state error signalling of
the real clients (`errors.IsNotFound` / `errors.IsAlreadyExists` / other).
Every gateway call is recorded in an execution trace.
-/

namespace Rosa

/-- An observed OpenShift Group (`userv1.Group`): its name and its member
(user) list, in delivered order, possibly with duplicates. -/
structure Group where
  name : String
  users : List String
deriving Repr, DecidableEq

/-- The cluster-side state the controller reads and writes: the names of the
existing projects, and the existing role bindings identified by
(namespace, name). -/
structure ClusterState where
  projects : List String
  roleBindings : List (String × String)
deriving Repr, DecidableEq

/-- Well-formed cluster state: object names are unique, as enforced by the
cluster itself (a second create of the same name is rejected with
"already exists" rather than stored). -/
def ClusterState.WF (s : ClusterState) : Prop :=
  s.projects.Nodup ∧ s.roleBindings.Nodup

instance (s : ClusterState) : Decidable s.WF := by
  unfold ClusterState.WF; infer_instance

/-- One gateway call, as recorded in the execution trace. -/
inductive GatewayOp where
  | getProject (name : String)
  | createProject (name : String)
  | deleteProject (name : String)
  | getRoleBinding (ns : String) (name : String)
  | createRoleBinding (ns : String) (name : String)
deriving Repr, DecidableEq

/-- Outcome of a get call. -/
inductive GetOutcome where
  | found
  | notFound
  | otherError
deriving Repr, DecidableEq

/-- Outcome of a create call. -/
inductive CreateOutcome where
  | created
  | alreadyExists
  | otherError
deriving Repr, DecidableEq

/-- Outcome of a delete call. -/
inductive DeleteOutcome where
  | deleted
  | notFound
  | otherError
deriving Repr, DecidableEq

/-- The distinguishable Kubernetes API error classes the controller code
branches on (`errors.IsNotFound`, `errors.IsAlreadyExists`, anything else). -/
inductive GoErr where
  | notFound
  | alreadyExists
  | otherError
deriving Repr, DecidableEq

/-- Fault oracle: `f op = true` makes that gateway call fail with an
unclassified error. All other behaviour is determined by the cluster state. -/
def FaultSpec : Type := GatewayOp → Bool

/-- The fault-free oracle: every gateway call behaves per the cluster state. -/
def nofault : FaultSpec := fun _ => false

/-- `Projects().Get(name)`: outcome as the caller observes it through `err`. -/
def getProjectOut (f : FaultSpec) (s : ClusterState) (name : String) : GetOutcome :=
  if f (.getProject name) then .otherError
  else if name ∈ s.projects then .found
  else .notFound

/-- `Projects().Create(name)`: new cluster state and outcome. A create of an
already-present name is rejected with "already exists" and changes nothing. -/
def createProjectRes (f : FaultSpec) (s : ClusterState) (name : String) :
    ClusterState × CreateOutcome :=
  if f (.createProject name) then (s, .otherError)
  else if name ∈ s.projects then (s, .alreadyExists)
  else ({ s with projects := s.projects ++ [name] }, .created)

/-- `Projects().Delete(name)`: new cluster state and outcome. -/
def deleteProjectRes (f : FaultSpec) (s : ClusterState) (name : String) :
    ClusterState × DeleteOutcome :=
  if f (.deleteProject name) then (s, .otherError)
  else if name ∈ s.projects then ({ s with projects := s.projects.erase name }, .deleted)
  else (s, .notFound)

/-- `RoleBindings(ns).Get(name)`: outcome as observed through `err`. -/
def getRoleBindingOut (f : FaultSpec) (s : ClusterState) (ns name : String) : GetOutcome :=
  if f (.getRoleBinding ns name) then .otherError
  else if (ns, name) ∈ s.roleBindings then .found
  else .notFound

/-- `RoleBindings(ns).Create(name)`: new cluster state and outcome. -/
def createRoleBindingRes (f : FaultSpec) (s : ClusterState) (ns name : String) :
    ClusterState × CreateOutcome :=
  if f (.createRoleBinding ns name) then (s, .otherError)
  else if (ns, name) ∈ s.roleBindings then (s, .alreadyExists)
  else ({ s with roleBindings := s.roleBindings ++ [(ns, name)] }, .created)

/-- The generated OpenShift project clientset pre-allocates the result object
(`result = new Project`) and returns that pointer together with the error, so
the `project` pointer observed by `handleGroup`'s removed-users loop is
non-nil for every outcome, including `notFound` and `otherError`. -/
def projectGetPtrNonNil (_out : GetOutcome) : Bool := true

/-- Result of a controller action: the cluster state after it, the trace of
gateway calls it issued, and the first error it encountered (`none` when the
action completed cleanly). For the per-member loop bodies, whose Go
counterparts log errors and discard callee return values, the `err` field
records the error that was encountered and logged for that member. -/
structure ActionResult where
  state : ClusterState
  trace : List GatewayOp
  err : Option GoErr
deriving Repr, DecidableEq

set_option linter.unusedVariables false in
/-- `createRoleBinding(user, projectName)` from `controller.go`: create the
role binding `<projectName>-edit` in namespace `projectName` binding `user`
to the cluster role "edit"; any create error (including "already exists") is
logged and returned. The `user` argument only populates the binding's
subject, which is not part of the modelled role-binding identity. -/
def createRoleBinding (f : FaultSpec) (s : ClusterState) (user projectName : String) :
    ActionResult :=
  let rbName := projectName ++ "-edit"
  let res := createRoleBindingRes f s projectName rbName
  let tr := [GatewayOp.createRoleBinding projectName rbName]
  match res.2 with
  | .created => ⟨res.1, tr, none⟩
  | .alreadyExists => ⟨res.1, tr, some (GoErr.alreadyExists)⟩
  | .otherError => ⟨res.1, tr, some (GoErr.otherError)⟩

/-- `createUserProject(user)` from `controller.go`: create project `user`;
on any create error (including "already exists") log and return it without
proceeding; on success proceed to `createRoleBinding(user, user)` and return
its result. The unused `user` argument of `createRoleBinding` is the subject
of the binding. -/
def createUserProject (f : FaultSpec) (s : ClusterState) (user : String) : ActionResult :=
  let res := createProjectRes f s user
  let tr := [GatewayOp.createProject user]
  match res.2 with
  | .created =>
      let r := createRoleBinding f res.1 user user
      ⟨r.state, tr ++ r.trace, r.err⟩
  | .alreadyExists => ⟨res.1, tr, some (GoErr.alreadyExists)⟩
  | .otherError => ⟨res.1, tr, some (GoErr.otherError)⟩

/-- Body of the added-users loop in `handleGroup`: look up project `user`;
if not found, call `createUserProject` (its returned error is discarded by
the loop but recorded here as the member's logged error); if the lookup
fails otherwise, log and stop for this member; if found, look up the role
binding `<user>-edit` in namespace `user` and create it only when that
lookup reports not-found. -/
def provisionMember (f : FaultSpec) (s : ClusterState) (user : String) : ActionResult :=
  let rbName := user ++ "-edit"
  match getProjectOut f s user with
  | .notFound =>
      let r := createUserProject f s user
      ⟨r.state, GatewayOp.getProject user :: r.trace, r.err⟩
  | .otherError => ⟨s, [GatewayOp.getProject user], some (GoErr.otherError)⟩
  | .found =>
      match getRoleBindingOut f s user rbName with
      | .notFound =>
          let r := createRoleBinding f s user user
          ⟨r.state, GatewayOp.getProject user :: GatewayOp.getRoleBinding user rbName :: r.trace,
            r.err⟩
      | .otherError =>
          ⟨s, [GatewayOp.getProject user, GatewayOp.getRoleBinding user rbName],
            some (GoErr.otherError)⟩
      | .found =>
          ⟨s, [GatewayOp.getProject user, GatewayOp.getRoleBinding user rbName], none⟩

/-- Body of the removed-users loop in `handleGroup`: look up project `user`
(logging the error if the lookup fails), then test `project != nil` — which,
by `projectGetPtrNonNil`, holds for every outcome — and in that case delete
project `user`, logging a delete error; the `else` branch logs that the
project does not exist. The `err` field records the first logged error. -/
def deprovisionMember (f : FaultSpec) (s : ClusterState) (user : String) : ActionResult :=
  let out := getProjectOut f s user
  let getErr : Option GoErr :=
    match out with
    | .found => none
    | .notFound => some (GoErr.notFound)
    | .otherError => some (GoErr.otherError)
  if projectGetPtrNonNil out then
    let res := deleteProjectRes f s user
    let delErr : Option GoErr :=
      match res.2 with
      | .deleted => none
      | .notFound => some (GoErr.notFound)
      | .otherError => some (GoErr.otherError)
    ⟨res.1, [GatewayOp.getProject user, GatewayOp.deleteProject user],
      match getErr with
      | some e => some e
      | none => delErr⟩
  else
    ⟨s, [GatewayOp.getProject user], getErr⟩

/-- The added-users set of `handleGroup`: iterate the keys of the `newUsers`
membership map (the deduplicated new member list) and keep those absent from
the `oldUsers` map. -/
def addedList (oldUsers newUsers : List String) : List String :=
  newUsers.dedup.filter (fun u => decide (u ∉ oldUsers))

/-- The removed-users set of `handleGroup`: iterate the keys of the
`oldUsers` membership map and keep those absent from the `newUsers` map. -/
def removedList (oldUsers newUsers : List String) : List String :=
  oldUsers.dedup.filter (fun u => decide (u ∉ newUsers))

/-- The old member list seen by `handleGroup`: empty when `oldGroup == nil`
(the group-creation case). -/
def oldUsersOf : Option Group → List String
  | none => []
  | some g => g.users

/-- Added members for a delivered (old, new) group pair. -/
def addedUsersOf (oldG : Option Group) (newG : Group) : List String :=
  addedList (oldUsersOf oldG) newG.users

/-- Removed members for a delivered (old, new) group pair. -/
def removedUsersOf (oldG : Option Group) (newG : Group) : List String :=
  removedList (oldUsersOf oldG) newG.users

/-- The `for _, user := range addedUsers` loop: process each added member in
order, threading the cluster state and concatenating the traces. -/
def processAdded (f : FaultSpec) (s : ClusterState) : List String → ClusterState × List GatewayOp
  | [] => (s, [])
  | u :: rest =>
      let r := provisionMember f s u
      let next := processAdded f r.state rest
      (next.1, r.trace ++ next.2)

/-- The `for _, user := range removedUsers` loop. -/
def processRemoved (f : FaultSpec) (s : ClusterState) : List String → ClusterState × List GatewayOp
  | [] => (s, [])
  | u :: rest =>
      let r := deprovisionMember f s u
      let next := processRemoved f r.state rest
      (next.1, r.trace ++ next.2)

/-- `handleGroup(oldGroup, newGroup)` from `controller.go`: compute the added
and removed member sets, run the added-users loop when the added set is
non-empty, then run the removed-users loop when the removed set is
non-empty; when both are empty only a log line is emitted. Returns the final
cluster state and the full gateway trace. -/
def handleGroup (f : FaultSpec) (s : ClusterState) (oldG : Option Group) (newG : Group) :
    ClusterState × List GatewayOp :=
  let added := addedUsersOf oldG newG
  let removed := removedUsersOf oldG newG
  let afterAdded := if 0 < added.length then processAdded f s added else (s, [])
  let afterRemoved :=
    if 0 < removed.length then processRemoved f afterAdded.1 removed else (afterAdded.1, [])
  (afterRemoved.1, afterAdded.2 ++ afterRemoved.2)

/-- A lifecycle event delivered by the informer for the watched group. -/
inductive GroupEvent where
  | created (g : Group)
  | updated (oldG newG : Group)
  | deleted (g : Group)
deriving Repr, DecidableEq

/-- The event handlers registered in `NewController`: `AddFunc` calls
`handleGroup(nil, group)`, `UpdateFunc` calls `handleGroup(old, new)`, and
`DeleteFunc` only logs, issuing no gateway call and changing nothing. -/
def handleEvent (f : FaultSpec) (s : ClusterState) : GroupEvent → ClusterState × List GatewayOp
  | .created g => handleGroup f s none g
  | .updated og ng => handleGroup f s (some og) ng
  | .deleted _ => (s, [])

/-- `Run(ctx)` from `controller.go`: start the informer, wait for the cache
sync; if the sync cannot complete, return the fatal error; otherwise handle
the events delivered until the context is cancelled, then shut down and
return nil. `syncOk` is whether `cache.WaitForCacheSync` succeeded and
`events` are the events delivered before cancellation. -/
def controllerRun (f : FaultSpec) (syncOk : Bool) (events : List GroupEvent)
    (s : ClusterState) : Except String ClusterState :=
  if !syncOk then Except.error "failed to wait for caches to sync"
  else Except.ok (events.foldl (fun st e => (handleEvent f st e).1) s)

/-! ## Helper lemmas -/

/-- Every branch of the added-member loop body begins by issuing the project
lookup for that member, so the lookup is in the member's trace. -/
lemma provisionMember_getProject_mem (f : FaultSpec) (s : ClusterState) (u : String) :
    GatewayOp.getProject u ∈ (provisionMember f s u).trace := by
  cases hg : getProjectOut f s u with
  | notFound => simp [provisionMember, hg]
  | otherError => simp [provisionMember, hg]
  | found =>
      cases hrb : getRoleBindingOut f s u (u ++ "-edit") <;> simp [provisionMember, hg, hrb]

/-- The removed-member loop body always issues exactly the project lookup
followed by the project delete. -/
lemma deprovisionMember_trace (f : FaultSpec) (s : ClusterState) (u : String) :
    (deprovisionMember f s u).trace = [GatewayOp.getProject u, GatewayOp.deleteProject u] := by
  simp [deprovisionMember, projectGetPtrNonNil]

/-- Each member of the added list has its project lookup in the loop's trace,
for any fault oracle and any starting state. -/
lemma processAdded_getProject_mem (f : FaultSpec) (us : List String) :
    ∀ (s : ClusterState) (u : String), u ∈ us →
      GatewayOp.getProject u ∈ (processAdded f s us).2 := by
  induction us with
  | nil => intro s u h; cases h
  | cons v rest ih =>
      intro s u h
      simp only [processAdded, List.mem_append]
      rcases List.mem_cons.mp h with h1 | h2
      · exact Or.inl (h1 ▸ provisionMember_getProject_mem f s v)
      · exact Or.inr (ih _ u h2)

/-- Each member of the removed list has its project lookup in the loop's
trace, for any fault oracle and any starting state. -/
lemma processRemoved_getProject_mem (f : FaultSpec) (us : List String) :
    ∀ (s : ClusterState) (u : String), u ∈ us →
      GatewayOp.getProject u ∈ (processRemoved f s us).2 := by
  induction us with
  | nil => intro s u h; cases h
  | cons v rest ih =>
      intro s u h
      simp only [processRemoved, List.mem_append]
      rcases List.mem_cons.mp h with h1 | h2
      · subst h1; exact Or.inl (by simp [deprovisionMember_trace])
      · exact Or.inr (ih _ u h2)

/-- Every member of the added or removed set of a reconciliation pass has its
project lookup in the pass's trace, whatever faults the gateway injects. -/
lemma handleGroup_getProject_mem (f : FaultSpec) (s : ClusterState) (og : Option Group)
    (ng : Group) (u : String)
    (h : u ∈ addedUsersOf og ng ∨ u ∈ removedUsersOf og ng) :
    GatewayOp.getProject u ∈ (handleGroup f s og ng).2 := by
  unfold handleGroup
  by_cases h1 : 0 < (addedUsersOf og ng).length <;>
    by_cases h2 : 0 < (removedUsersOf og ng).length <;>
      simp only [h1, h2, if_pos, if_neg, if_true, if_false, List.mem_append,
        List.append_nil, List.nil_append, not_false_iff] <;>
      rcases h with h | h
  · exact Or.inl (processAdded_getProject_mem f _ s u h)
  · exact Or.inr (processRemoved_getProject_mem f _ _ u h)
  · exact processAdded_getProject_mem f _ s u h
  · exact absurd (List.length_pos.mpr (List.ne_nil_of_mem h)) h2
  · exact absurd (List.length_pos.mpr (List.ne_nil_of_mem h)) h1
  · exact processRemoved_getProject_mem f _ _ u h
  · exact absurd (List.length_pos.mpr (List.ne_nil_of_mem h)) h1
  · exact absurd (List.length_pos.mpr (List.ne_nil_of_mem h)) h2

/-! ## Claim theorems -/

/-- Claim C1 (code behavior at the claimed inputs): an "already exists"
outcome on a create is treated as an error, not as success. When the project
create for member "bob" reports already-exists, `createUserProject` returns
the already-exists error and its trace contains no role-binding call, so
processing of that member does not continue to the role-binding step; and
when the role-binding create for member "alice" reports already-exists, that
member's provisioning step records the already-exists error instead of
completing without error. -/
theorem C1_already_exists_treated_as_error :
    (createUserProject nofault ⟨["bob"], []⟩ "bob" =
      ⟨⟨["bob"], []⟩, [GatewayOp.createProject "bob"], some GoErr.alreadyExists⟩) ∧
    ((provisionMember nofault ⟨[], [("alice", "alice-edit")]⟩ "alice").err =
      some GoErr.alreadyExists) :=
  ⟨rfl, rfl⟩

/-- Claim C2 (code behavior at the claimed inputs): the removed-member pass
issues the project delete even when the preceding lookup did not find the
project. With no project "bob" present, the lookup reports not-found and the
delete is still issued; and when the lookup fails with an unclassified error
(project "bob" present, lookup faulted), the delete is still issued and
actually removes the project instead of aborting. -/
theorem C2_delete_issued_despite_lookup_failure :
    (deprovisionMember nofault ⟨[], []⟩ "bob" =
      ⟨⟨[], []⟩, [GatewayOp.getProject "bob", GatewayOp.deleteProject "bob"],
        some GoErr.notFound⟩) ∧
    (deprovisionMember (fun op => decide (op = GatewayOp.getProject "bob")) ⟨["bob"], []⟩ "bob" =
      ⟨⟨[], []⟩, [GatewayOp.getProject "bob", GatewayOp.deleteProject "bob"],
        some GoErr.otherError⟩) :=
  ⟨rfl, rfl⟩

/-- Claim C3: for every fault oracle (so in particular whatever gateway
failures occur while provisioning or deprovisioning individual members),
every member of the added set and every member of the removed set is still
processed in the same reconciliation pass: its project lookup — the first
gateway call of its per-member step — appears in the pass's trace. -/
theorem C3_member_failure_isolation (f : FaultSpec) (s : ClusterState) (og : Option Group)
    (ng : Group) (u : String)
    (h : u ∈ addedUsersOf og ng ∨ u ∈ removedUsersOf og ng) :
    GatewayOp.getProject u ∈ (handleGroup f s og ng).2 :=
  handleGroup_getProject_mem f s og ng u h

/-- Witness for C3: with a gateway that fails every call, member "alice" of
the added set and member "carol" of the removed set are both still
processed. -/
theorem C3_member_failure_isolation_witness :
    ("alice" ∈ addedUsersOf (some ⟨"g", ["carol"]⟩) ⟨"g", ["alice"]⟩ ∨
      "alice" ∈ removedUsersOf (some ⟨"g", ["carol"]⟩) ⟨"g", ["alice"]⟩) ∧
    GatewayOp.getProject "alice" ∈
      (handleGroup (fun _ => true) ⟨[], []⟩ (some ⟨"g", ["carol"]⟩) ⟨"g", ["alice"]⟩).2 :=
  ⟨Or.inl (by decide),
    C3_member_failure_isolation (fun _ => true) ⟨[], []⟩ (some ⟨"g", ["carol"]⟩)
      ⟨"g", ["alice"]⟩ "alice" (Or.inl (by decide))⟩

/-- Claim C5: the membership diff computed by `handleGroup` yields
added = current minus previous and removed = previous minus current as
duplicate-free lists with empty intersection, duplicates inside either
observed list counting as a single logical member (set semantics). -/
theorem C5_diff_added_removed_disjoint (prev curr : List String) :
    (addedList prev curr).toFinset = curr.toFinset \ prev.toFinset ∧
    (removedList prev curr).toFinset = prev.toFinset \ curr.toFinset ∧
    (addedList prev curr).Nodup ∧
    (removedList prev curr).Nodup ∧
    ∀ u, ¬(u ∈ addedList prev curr ∧ u ∈ removedList prev curr) := by
  refine ⟨?_, ?_, ?_, ?_, ?_⟩
  · ext x
    simp [addedList, List.mem_filter]
  · ext x
    simp [removedList, List.mem_filter]
  · exact List.Nodup.filter _ (List.nodup_dedup _)
  · exact List.Nodup.filter _ (List.nodup_dedup _)
  · intro u h
    simp only [addedList, removedList, List.mem_filter, List.mem_dedup,
      decide_eq_true_eq] at h
    exact h.1.2 h.2.1

/-- Claim C6: a Created event is dispatched as `handleGroup(nil, group)`,
where the previous member set is absent: the added set is exactly the
delivered member set (as a set), the removed set is empty, and the
provisioning step runs for (at least begins processing of) every delivered
member. -/
theorem C6_created_event_full_adoption (f : FaultSpec) (s : ClusterState) (g : Group) :
    (addedUsersOf none g).toFinset = g.users.toFinset ∧
    removedUsersOf none g = [] ∧
    handleEvent f s (GroupEvent.created g) = handleGroup f s none g ∧
    ∀ u ∈ g.users, GatewayOp.getProject u ∈ (handleEvent f s (GroupEvent.created g)).2 := by
  refine ⟨?_, rfl, rfl, ?_⟩
  · ext x
    simp [addedUsersOf, addedList, oldUsersOf, List.mem_filter]
  · intro u hu
    have hadd : u ∈ addedUsersOf none g := by
      simp [addedUsersOf, addedList, oldUsersOf, List.mem_filter, hu]
    exact handleGroup_getProject_mem f s none g u (Or.inl hadd)

/-- Witness for C6: concrete Created event with a duplicated member list. -/
theorem C6_created_event_full_adoption_witness :
    GatewayOp.getProject "bob" ∈
      (handleEvent nofault ⟨[], []⟩ (GroupEvent.created ⟨"g", ["alice", "bob", "alice"]⟩)).2 :=
  (C6_created_event_full_adoption nofault ⟨[], []⟩ ⟨"g", ["alice", "bob", "alice"]⟩).2.2.2
    "bob" (by decide)

/-- Claim C7: for a member whose project already exists and whose role
binding is missing, the provisioning step issues no project create and
creates exactly the missing role binding: the trace is the project lookup,
the role-binding lookup and the role-binding create, the state gains only
the role binding, and the member completes without error. -/
theorem C7_rebinds_existing_project (s : ClusterState) (u : String)
    (hp : u ∈ s.projects) (hr : (u, u ++ "-edit") ∉ s.roleBindings) :
    provisionMember nofault s u =
      ⟨{ s with roleBindings := s.roleBindings ++ [(u, u ++ "-edit")] },
        [GatewayOp.getProject u, GatewayOp.getRoleBinding u (u ++ "-edit"),
          GatewayOp.createRoleBinding u (u ++ "-edit")], none⟩ := by
  simp [provisionMember, getProjectOut, getRoleBindingOut, createRoleBinding,
    createRoleBindingRes, nofault, hp, hr]

/-- Witness for C7: member "alice" with project "alice" present and no role
binding. -/
theorem C7_rebinds_existing_project_witness :
    ("alice" ∈ (ClusterState.mk ["alice"] []).projects ∧
      ("alice", "alice-edit") ∉ (ClusterState.mk ["alice"] []).roleBindings) ∧
    provisionMember nofault ⟨["alice"], []⟩ "alice" =
      ⟨⟨["alice"], [("alice", "alice-edit")]⟩,
        [GatewayOp.getProject "alice", GatewayOp.getRoleBinding "alice" "alice-edit",
          GatewayOp.createRoleBinding "alice" "alice-edit"], none⟩ :=
  ⟨⟨by decide, by decide⟩,
    C7_rebinds_existing_project ⟨["alice"], []⟩ "alice" (by decide) (by decide)⟩

/-- Claim C8: `Run` returns the fatal error exactly when the initial cache
synchronization cannot complete; when it succeeds, `Run` processes the
delivered events until cancellation and then returns success. -/
theorem C8_run_fatal_iff_sync_fails (f : FaultSpec) (b : Bool) (events : List GroupEvent)
    (s : ClusterState) :
    ((∃ msg, controllerRun f b events s = Except.error msg) ↔ b = false) ∧
    (b = true → controllerRun f b events s =
      Except.ok (events.foldl (fun st e => (handleEvent f st e).1) s)) := by
  cases b <;> simp [controllerRun]

/-- Witness for C8: a failed sync returns the fatal error; a successful sync
with no delivered events returns success. -/
theorem C8_run_fatal_iff_sync_fails_witness :
    (∃ msg, controllerRun nofault false [] ⟨[], []⟩ = Except.error msg) ∧
    controllerRun nofault true [] ⟨[], []⟩ = Except.ok ⟨[], []⟩ :=
  ⟨(C8_run_fatal_iff_sync_fails nofault false [] ⟨[], []⟩).1.mpr rfl,
    (C8_run_fatal_iff_sync_fails nofault true [] ⟨[], []⟩).2 rfl⟩

/-- Claim C9: a Deleted event for the watched group is only logged: for every
cluster state and every delivered group, handling it issues no gateway call
at all and leaves the cluster state unchanged. -/
theorem C9_deleted_event_is_ignored (f : FaultSpec) (s : ClusterState) (g : Group) :
    handleEvent f s (GroupEvent.deleted g) = (s, []) :=
  rfl

/-- Claim C10: an update whose old and new member lists denote the same
member set (for example a periodic resync redelivering unchanged state) is
handled without any gateway call and leaves the cluster state unchanged. -/
theorem C10_unchanged_members_is_noop (f : FaultSpec) (s : ClusterState) (og ng : Group)
    (h : og.users.toFinset = ng.users.toFinset) :
    handleEvent f s (GroupEvent.updated og ng) = (s, []) := by
  have hmem : ∀ u : String, u ∈ og.users ↔ u ∈ ng.users := by
    intro u
    have h2 := Finset.ext_iff.mp h u
    simpa using h2
  have hadd : addedUsersOf (some og) ng = [] := by
    simp only [addedUsersOf, addedList, oldUsersOf, List.filter_eq_nil_iff,
      decide_eq_true_eq, List.mem_dedup, Decidable.not_not]
    intro u hu
    exact (hmem u).mpr hu
  have hrem : removedUsersOf (some og) ng = [] := by
    simp only [removedUsersOf, removedList, oldUsersOf, List.filter_eq_nil_iff,
      decide_eq_true_eq, List.mem_dedup, Decidable.not_not]
    intro u hu
    exact (hmem u).mp hu
  simp [handleEvent, handleGroup, hadd, hrem]

/-- Witness for C10: a resync delivering `["alice", "alice"]` then
`["alice"]` (same member set) performs no gateway operation. -/
theorem C10_unchanged_members_is_noop_witness :
    (Group.mk "g" ["alice", "alice"]).users.toFinset =
      (Group.mk "g" ["alice"]).users.toFinset ∧
    handleEvent nofault ⟨["alice"], []⟩
      (GroupEvent.updated ⟨"g", ["alice", "alice"]⟩ ⟨"g", ["alice"]⟩) =
      (⟨["alice"], []⟩, []) :=
  ⟨by decide,
    C10_unchanged_members_is_noop nofault ⟨["alice"], []⟩ ⟨"g", ["alice", "alice"]⟩
      ⟨"g", ["alice"]⟩ (by decide)⟩

/-- In a duplicate-free list, a present element is counted exactly once
(generic over the `BEq` instance, unlike the Mathlib `DecidableEq` form). -/
lemma count_eq_one_of_nodup_mem {α : Type} [BEq α] [LawfulBEq α] {l : List α} {a : α}
    (d : l.Nodup) (h : a ∈ l) : l.count a = 1 := by
  induction l with
  | nil => cases h
  | cons b t ih =>
      rcases List.mem_cons.mp h with h1 | h2
      · subst h1
        rw [List.count_cons_self, List.count_eq_zero_of_not_mem (List.nodup_cons.mp d).1]
      · have hne : a ≠ b := by
          intro he
          exact (List.nodup_cons.mp d).1 (he ▸ h2)
        rw [List.count_cons_of_ne hne, ih (List.nodup_cons.mp d).2 h2]

/-- Fault-free provisioning when both the project and the role binding
exist: both lookups succeed and nothing changes. -/
lemma provisionMember_found_found {s : ClusterState} {u : String}
    (hp : u ∈ s.projects) (hr : (u, u ++ "-edit") ∈ s.roleBindings) :
    provisionMember nofault s u =
      ⟨s, [GatewayOp.getProject u, GatewayOp.getRoleBinding u (u ++ "-edit")], none⟩ := by
  simp [provisionMember, getProjectOut, getRoleBindingOut, nofault, hp, hr]

/-- Fault-free provisioning when the project exists but the role binding is
missing: only the role binding is created. -/
lemma provisionMember_found_missing {s : ClusterState} {u : String}
    (hp : u ∈ s.projects) (hr : (u, u ++ "-edit") ∉ s.roleBindings) :
    provisionMember nofault s u =
      ⟨{ s with roleBindings := s.roleBindings ++ [(u, u ++ "-edit")] },
        [GatewayOp.getProject u, GatewayOp.getRoleBinding u (u ++ "-edit"),
          GatewayOp.createRoleBinding u (u ++ "-edit")], none⟩ := by
  simp [provisionMember, getProjectOut, getRoleBindingOut, createRoleBinding,
    createRoleBindingRes, nofault, hp, hr]

/-- Fault-free provisioning when neither the project nor the role binding
exists: both are created and the member completes without error. -/
lemma provisionMember_missing_missing {s : ClusterState} {u : String}
    (hp : u ∉ s.projects) (hr : (u, u ++ "-edit") ∉ s.roleBindings) :
    provisionMember nofault s u =
      ⟨⟨s.projects ++ [u], s.roleBindings ++ [(u, u ++ "-edit")]⟩,
        [GatewayOp.getProject u, GatewayOp.createProject u,
          GatewayOp.createRoleBinding u (u ++ "-edit")], none⟩ := by
  simp [provisionMember, getProjectOut, createUserProject, createProjectRes,
    createRoleBinding, createRoleBindingRes, nofault, hp, hr]

/-- Fault-free provisioning when the project is missing but the role binding
already exists: the project is created and the role-binding create reports
already-exists, which the code records as this member's error. -/
lemma provisionMember_missing_present {s : ClusterState} {u : String}
    (hp : u ∉ s.projects) (hr : (u, u ++ "-edit") ∈ s.roleBindings) :
    provisionMember nofault s u =
      ⟨⟨s.projects ++ [u], s.roleBindings⟩,
        [GatewayOp.getProject u, GatewayOp.createProject u,
          GatewayOp.createRoleBinding u (u ++ "-edit")], some GoErr.alreadyExists⟩ := by
  simp [provisionMember, getProjectOut, createUserProject, createProjectRes,
    createRoleBinding, createRoleBindingRes, nofault, hp, hr]

/-- Claim C4: provisioning is idempotent. From any well-formed cluster state,
running the fault-free provisioning step for member `u` twice leaves exactly
one project named `u` and exactly one role binding `(u, u-edit)` (not two),
the second run records no error, and the second run changes nothing. -/
theorem C4_provision_twice_idempotent (s : ClusterState) (u : String) (hWF : s.WF) :
    (provisionMember nofault (provisionMember nofault s u).state u).state.projects.count u = 1 ∧
    (provisionMember nofault (provisionMember nofault s u).state u).state.roleBindings.count
      (u, u ++ "-edit") = 1 ∧
    (provisionMember nofault (provisionMember nofault s u).state u).err = none ∧
    (provisionMember nofault (provisionMember nofault s u).state u).state =
      (provisionMember nofault s u).state := by
  have hrb : (u, u ++ "-edit") ∈ [(u, u ++ "-edit")] := List.mem_singleton_self _
  have hu : u ∈ [u] := List.mem_singleton_self _
  by_cases hp : u ∈ s.projects <;> by_cases hr : (u, u ++ "-edit") ∈ s.roleBindings
  · simp only [provisionMember_found_found hp hr]
    exact ⟨count_eq_one_of_nodup_mem hWF.1 hp, count_eq_one_of_nodup_mem hWF.2 hr,
      trivial, trivial⟩
  · simp only [provisionMember_found_missing hp hr,
      provisionMember_found_found (s := ⟨s.projects, s.roleBindings ++ [(u, u ++ "-edit")]⟩) hp
        (List.mem_append_right _ hrb)]
    refine ⟨count_eq_one_of_nodup_mem hWF.1 hp, ?_, trivial, trivial⟩
    rw [List.count_append, List.count_eq_zero_of_not_mem hr, List.count_singleton_self]
  · simp only [provisionMember_missing_present hp hr,
      provisionMember_found_found (s := ⟨s.projects ++ [u], s.roleBindings⟩)
        (List.mem_append_right _ hu) hr]
    refine ⟨?_, count_eq_one_of_nodup_mem hWF.2 hr, trivial, trivial⟩
    rw [List.count_append, List.count_eq_zero_of_not_mem hp, List.count_singleton_self]
  · simp only [provisionMember_missing_missing hp hr,
      provisionMember_found_found
        (s := ⟨s.projects ++ [u], s.roleBindings ++ [(u, u ++ "-edit")]⟩)
        (List.mem_append_right _ hu) (List.mem_append_right _ hrb)]
    refine ⟨?_, ?_, trivial, trivial⟩
    · rw [List.count_append, List.count_eq_zero_of_not_mem hp, List.count_singleton_self]
    · rw [List.count_append, List.count_eq_zero_of_not_mem hr, List.count_singleton_self]

/-- Witness for C4: provisioning "alice" twice from the empty cluster state
yields one project, one role binding, and a clean second run. -/
theorem C4_provision_twice_idempotent_witness :
    ClusterState.WF ⟨[], []⟩ ∧
    ((provisionMember nofault (provisionMember nofault ⟨[], []⟩ "alice").state
        "alice").state.projects.count "alice" = 1 ∧
      (provisionMember nofault (provisionMember nofault ⟨[], []⟩ "alice").state
        "alice").state.roleBindings.count ("alice", "alice" ++ "-edit") = 1 ∧
      (provisionMember nofault (provisionMember nofault ⟨[], []⟩ "alice").state
        "alice").err = none ∧
      (provisionMember nofault (provisionMember nofault ⟨[], []⟩ "alice").state
        "alice").state = (provisionMember nofault ⟨[], []⟩ "alice").state) :=
  ⟨by decide, C4_provision_twice_idempotent ⟨[], []⟩ "alice" (by decide)⟩

end Rosa
